import Mathlib

/-!
Shallow embedding of the token-gated usage-metering core of the DAT-AI-Agent
repository.

Embedded code:
* `src/unnamed/part_001` — class `AIAgent`: `verifyAccess`, `processQuery`,
  `validateQuery`, `calculateUsageCost`, `consumeUsageWithLogging`,
  `generateVerificationProof`, `verifyResponse`, `processTEE`.
* `src/lib/security.ts` — class `SecurityManager`: `checkRateLimit`.

Modelling conventions:
* JS `Map<string, v>` is modelled as an association list observed through
  `alistGet` / `alistSet` / `alistDel` (`Map.set` overwrites the entry for an
  existing key; the model realises this up to `alistGet`/`alistDel`
  observations, which is all the embedded code inspects).
* `Date.now()` is an explicit `now : Nat` argument (milliseconds).
* The external ethers contract and provider are an explicit environment
  `Env`: `contractValid` captures `this.contract && this.provider &&
  this.isValidProvider(this.provider)` (the constructor sets contract and
  provider together, so a single flag is faithful); `getUserSubscription`
  and `consumeUsage` are the two contract calls, returning `Except Unit _`
  (a thrown JS exception is `.error ()`).
* `Env.execute` stands for `generateEnhancedAIResponse` viewed as the
  external capability call made inside `processQuery`'s try block; it may
  throw (`.error ()`), which transfers control to the catch block.
* Ledger interactions and capability invocations are recorded in an event
  trace (`Event`), so "no ledger call was made" is a statement about the
  trace.
* JS numbers that hold integer quantities (quota, timestamps, counts,
  costs) are `Nat`/`Int`; `AIResponse.confidence` (0.7 / 0.85 / 0.9 in the
  source) is carried in hundredths as a `Nat` — no claim depends on its
  scale, only on equality.
-/

set_option autoImplicit false

namespace DATAgent

/-- `Map.get`: first binding for the key, if any. -/
def alistGet {α : Type} (k : String) : List (String × α) → Option α
  | [] => none
  | (k2, v) :: rest => if k2 = k then some v else alistGet k rest

/-- `Map.delete`: drop every binding for the key. -/
def alistDel {α : Type} (k : String) : List (String × α) → List (String × α)
  | [] => []
  | (k2, v) :: rest => if k2 = k then alistDel k rest else (k2, v) :: alistDel k rest

/-- `Map.set`: overwrite the binding for the key (modelled up to
`alistGet`/`alistDel` observations). -/
def alistSet {α : Type} (k : String) (v : α) (l : List (String × α)) :
    List (String × α) :=
  (k, v) :: alistDel k l

/-- Does the second list start with the first? (JS `String.startsWith` on
char lists.) -/
def listStartsWith : List Char → List Char → Bool
  | [], _ => true
  | _ :: _, [] => false
  | p :: ps, c :: cs => (p == c) && listStartsWith ps cs

/-- Does the list contain the pattern as a contiguous sublist? -/
def listContainsSub (pat : List Char) : List Char → Bool
  | [] => pat.isEmpty
  | c :: rest => listStartsWith pat (c :: rest) || listContainsSub pat rest

/-- JS `String.prototype.includes`. -/
def strContains (s pat : String) : Bool :=
  listContainsSub pat.data s.data

/-- JS `String.prototype.toLowerCase` (addresses, tier names and the
prohibited keywords are ASCII, where `Char.toLower` agrees with JS). -/
def strToLower (s : String) : String :=
  String.mk (s.data.map Char.toLower)

/-- JS `!query.trim()`: the string trims to empty exactly when every
character is whitespace. -/
def isBlank (s : String) : Bool :=
  s.data.all Char.isWhitespace

/-- Access tier, the value space of `accessLevel` in the source. -/
inductive AccessLevel where
  | basic
  | premium
  | enterprise
deriving DecidableEq, Repr

/-- `AccessControlResult` (src/unnamed/part_001 lines 17-24). Every value the
source constructs fills all the optional fields, so they are total here. -/
structure AccessControlResult where
  hasAccess : Bool
  tokenId : String
  remainingUsage : Nat
  expiryTime : Nat
  tierName : String
  accessLevel : AccessLevel
deriving DecidableEq, Repr

/-- `QueryContext` (src/unnamed/part_001 lines 26-32). -/
structure QueryContext where
  userAddress : String
  query : String
  timestamp : Nat
  sessionId : String
deriving DecidableEq, Repr

/-- The object serialized into the proof string by
`generateVerificationProof` (src/unnamed/part_001 lines 315-320). -/
structure ProofPayload where
  query : String
  response : String
  timestamp : Nat
  userAddress : String
deriving DecidableEq, Repr

/-- The `proof` string of a `VerificationProof`. The source builds
`"ZKP_" ++ base64(JSON.stringify(payload))`; `verifyResponse` strips the
marker and decodes. `JSON.parse ∘ base64decode` inverts
`base64encode ∘ JSON.stringify` (round-trip contract of the platform
encoders), so the encoded string is modelled as the payload tagged `zkp`; a
string that did not come from the encoder (whose decode throws) is
`rawBlob`. -/
inductive ProofBlob where
  | zkp (payload : ProofPayload)
  | rawBlob (s : String)
deriving DecidableEq, Repr

/-- `VerificationProof` (src/unnamed/part_001 lines 4-8). -/
structure VerificationProof where
  proof : ProofBlob
  publicInputs : List String
  timestamp : Nat
deriving DecidableEq, Repr

/-- `AIResponse` (src/unnamed/part_001 lines 10-15); `confidence` in
hundredths. -/
structure AIResponse where
  content : String
  confidence : Nat
  sources : List String
  verificationProof : Option VerificationProof
deriving DecidableEq, Repr

/-- The tuple returned by the contract call `getUserSubscription`
(src/unnamed/part_001 line 97-98). -/
structure LedgerSub where
  isValid : Bool
  tokenId : String
  expiryTime : Nat
  remainingUsage : Nat
  tierName : String
deriving DecidableEq, Repr

/-- Observable external interactions of the agent: a ledger read
(`getUserSubscription`), a ledger usage commit (`consumeUsage`, recorded
whenever the call is issued, whether or not it succeeds), and an invocation
of the response-generation capability. -/
inductive Event where
  | readSub (addr : String)
  | consume (addr : String) (amount : Nat)
  | exec (query : String)
deriving DecidableEq, Repr

/-- External environment: contract/provider validity and the behaviour of
the two contract calls and of the capability. -/
structure Env where
  contractValid : Bool
  getUserSubscription : String → Except Unit LedgerSub
  consumeUsage : String → Nat → Except Unit String
  execute : String → AccessLevel → Except Unit AIResponse

/-- Mutable state of an `AIAgent` instance relevant to the embedded code:
the access cache `Map`, keyed by lowercased address, holding a result and
the `Date.now()` at which it was stored. -/
structure AgentState where
  accessCache : List (String × (AccessControlResult × Nat))
deriving DecidableEq, Repr

/-- `CACHE_DURATION` (src/unnamed/part_001 line 38): one minute. -/
def cacheDuration : Nat := 60000

/-- Tier-name classification in `verifyAccess` (src/unnamed/part_001
lines 100-105). -/
def tierAccessLevel (tierName : String) : AccessLevel :=
  if strContains tierName "Lifetime" then .enterprise
  else if strContains tierName "Monthly" then .premium
  else .basic

/-- The demo-mode result returned when no valid contract is available
(src/unnamed/part_001 lines 84-91). -/
def mockResult (now : Nat) : AccessControlResult :=
  { hasAccess := true, tokenId := "demo-1", remainingUsage := 10,
    expiryTime := now / 1000 + 86400 * 30, tierName := "Demo Access",
    accessLevel := .premium }

/-- The fallback result returned when the ledger read throws
(src/unnamed/part_001 lines 121-128). -/
def fallbackResult (now : Nat) : AccessControlResult :=
  { hasAccess := true, tokenId := "fallback-1", remainingUsage := 5,
    expiryTime := now / 1000 + 86400 * 7, tierName := "Demo Fallback",
    accessLevel := .basic }

/-- The cache-miss tail of `verifyAccess` (src/unnamed/part_001
lines 82-131): demo mode, successful ledger read, or fallback on a thrown
read; each stores its result in the cache under the lowercased address. -/
def verifyAccessFetch (env : Env) (st : AgentState) (now : Nat)
    (userAddress : String) (cacheKey : String) :
    AccessControlResult × AgentState × List Event :=
  if env.contractValid = false then
    let r := mockResult now
    (r, ⟨alistSet cacheKey (r, now) st.accessCache⟩, [])
  else
    match env.getUserSubscription userAddress with
    | .ok sub =>
      let r : AccessControlResult :=
        { hasAccess := sub.isValid, tokenId := sub.tokenId,
          remainingUsage := sub.remainingUsage, expiryTime := sub.expiryTime,
          tierName := sub.tierName,
          accessLevel := tierAccessLevel sub.tierName }
      (r, ⟨alistSet cacheKey (r, now) st.accessCache⟩, [.readSub userAddress])
    | .error _ =>
      let r := fallbackResult now
      (r, ⟨alistSet cacheKey (r, now) st.accessCache⟩, [.readSub userAddress])

/-- `verifyAccess` (src/unnamed/part_001 lines 74-132). Returns the access
result, the updated agent state, and the trace of ledger calls issued. -/
def verifyAccess (env : Env) (st : AgentState) (now : Nat)
    (userAddress : String) (forceRefresh : Bool) :
    AccessControlResult × AgentState × List Event :=
  let cacheKey := strToLower userAddress
  match alistGet cacheKey st.accessCache with
  | some (r, ts) =>
    if forceRefresh = false ∧ now - ts < cacheDuration then (r, st, [])
    else verifyAccessFetch env st now userAddress cacheKey
  | none => verifyAccessFetch env st now userAddress cacheKey

/-- Result shape of `validateQuery` (src/unnamed/part_001 lines 217-220). -/
structure ValidationResult where
  isValid : Bool
  error : Option String
deriving DecidableEq, Repr

/-- `prohibitedTerms` (src/unnamed/part_001 line 225). -/
def prohibitedTerms : List String := ["hack", "exploit", "illegal", "fraud"]

/-- `validateQuery` (src/unnamed/part_001 lines 214-237). -/
def validateQuery (query : String) (accessLevel : AccessLevel) :
    ValidationResult :=
  if isBlank query = true ∨ query.length > 1000 then
    { isValid := false, error := some "Query must be between 1-1000 characters." }
  else if prohibitedTerms.any (fun term => strContains (strToLower query) term) then
    { isValid := false, error := some "Query contains prohibited content." }
  else if accessLevel = .basic ∧ query.length > 200 then
    { isValid := false,
      error := some "Basic tier limited to 200 character queries. Upgrade for longer queries." }
  else
    { isValid := true, error := none }

/-- The "expensive content" test of `calculateUsageCost`
(src/unnamed/part_001 line 336). -/
def hasExpensiveMarker (query : String) : Bool :=
  strContains query "analysis" || strContains query "strategy"

/-- `calculateUsageCost` (src/unnamed/part_001 lines 332-346). The source
computes `Math.max(1, Math.floor(baseCost * 0.5))` and
`Math.max(1, Math.floor(baseCost * 0.8))` in IEEE-754 doubles; for every
reachable `baseCost` (1, 2 or 3) the double computation floors to the same
integer as exact rational arithmetic, so `Nat` division is faithful. -/
def calculateUsageCost (query : String) (accessLevel : AccessLevel) : Nat :=
  let baseCost :=
    1 + (if query.length > 100 then 1 else 0)
      + (if hasExpensiveMarker query then 1 else 0)
  match accessLevel with
  | .enterprise => max 1 (baseCost * 5 / 10)
  | .premium => max 1 (baseCost * 8 / 10)
  | .basic => baseCost

/-- `processTEE` (src/unnamed/part_001 lines 239-250); the base64 encoding
of the query is carried as the query itself (the value is computed and
discarded by `processQuery`, so only its totality matters). -/
def processTEE (context : QueryContext) (now : Nat) : String × String :=
  ("TEE_ATTESTATION_" ++ context.sessionId ++ "_" ++ toString now,
   "ENCRYPTED_" ++ context.query)

/-- `generateVerificationProof` (src/unnamed/part_001 lines 314-330). -/
def generateVerificationProof (context : QueryContext) (response : AIResponse)
    (now : Nat) : VerificationProof :=
  { proof := ProofBlob.zkp
      { query := context.query, response := response.content,
        timestamp := context.timestamp, userAddress := context.userAddress },
    publicInputs :=
      [context.userAddress, toString context.timestamp,
       toString response.confidence],
    timestamp := now }

/-- `verifyResponse` (src/unnamed/part_001 lines 403-410): decode the proof
string and compare its `response` field with the claimed response; a decode
failure is caught and yields `false`. -/
def verifyResponse (proof : VerificationProof) (response : String) : Bool :=
  match proof.proof with
  | .zkp payload => payload.response == response
  | .rawBlob _ => false

/-- `consumeUsageWithLogging` (src/unnamed/part_001 lines 348-366): demo
mode issues no ledger call; otherwise the commit call is issued, and a
thrown commit is swallowed, returning a fallback transaction hash. -/
def consumeUsageWithLogging (env : Env) (now : Nat) (userAddress : String)
    (amount : Nat) : String × List Event :=
  if env.contractValid = false then
    ("demo_tx_" ++ toString now, [])
  else
    match env.consumeUsage userAddress amount with
    | .ok txHash => (txHash, [.consume userAddress amount])
    | .error _ => ("fallback_tx_" ++ toString now, [.consume userAddress amount])

/-- Result shape of `processQuery` (src/unnamed/part_001 lines 141-147). -/
structure ProcessResult where
  success : Bool
  response : Option AIResponse
  error : Option String
  usageConsumed : Option Nat
  transactionHash : Option String
deriving DecidableEq, Repr

/-- Error message of the access-denied rejection (src/unnamed/part_001
line 161). -/
def accessDeniedMsg : String :=
  "Access denied. Please purchase a valid DAT subscription to access the AI agent."

/-- Error message of the quota rejection (src/unnamed/part_001 line 169). -/
def quotaExceededMsg : String :=
  "Usage quota exceeded. Please upgrade your subscription or wait for renewal."

/-- Error message of the catch block (src/unnamed/part_001 line 209). -/
def processingFailedMsg : String :=
  "Failed to process query. Please try again later."

/-- `processQuery` (src/unnamed/part_001 lines 137-212). Returns the result
object, the updated agent state, and the trace of external interactions. -/
def processQuery (env : Env) (st : AgentState) (now : Nat)
    (userAddress : String) (query : String) (sessionId : String) :
    ProcessResult × AgentState × List Event :=
  let context : QueryContext :=
    { userAddress := userAddress, query := query, timestamp := now,
      sessionId := sessionId }
  let va := verifyAccess env st now userAddress false
  let accessCheck := va.1
  let st1 := va.2.1
  let tr1 := va.2.2
  if accessCheck.hasAccess = false then
    ({ success := false, response := none, error := some accessDeniedMsg,
       usageConsumed := none, transactionHash := none }, st1, tr1)
  else if accessCheck.remainingUsage = 0 then
    ({ success := false, response := none, error := some quotaExceededMsg,
       usageConsumed := none, transactionHash := none }, st1, tr1)
  else
    let validationResult := validateQuery query accessCheck.accessLevel
    if validationResult.isValid = false then
      ({ success := false, response := none, error := validationResult.error,
         usageConsumed := none, transactionHash := none }, st1, tr1)
    else
      let _tee := processTEE context now
      match env.execute query accessCheck.accessLevel with
      | .error _ =>
        ({ success := false, response := none,
           error := some processingFailedMsg,
           usageConsumed := none, transactionHash := none },
         st1, tr1 ++ [.exec query])
      | .ok aiResponse =>
        let proof := generateVerificationProof context aiResponse now
        let response := { aiResponse with verificationProof := some proof }
        let usageAmount := calculateUsageCost query accessCheck.accessLevel
        let cu := consumeUsageWithLogging env now userAddress usageAmount
        let st2 : AgentState := ⟨alistDel (strToLower userAddress) st1.accessCache⟩
        ({ success := true, response := some response, error := none,
           usageConsumed := some usageAmount, transactionHash := some cu.1 },
         st2, tr1 ++ [.exec query] ++ cu.2)

/-- Per-key entry of the rate-limit map (src/lib/security.ts line 3). -/
structure RateLimitEntry where
  count : Nat
  resetTime : Nat
deriving DecidableEq, Repr

/-- Result shape of `checkRateLimit` (src/lib/security.ts lines 20-24);
`remaining` is an `Int` because the source can return `maxRequests - 1`
for `maxRequests = 0`. -/
structure RateLimitResult where
  allowed : Bool
  remaining : Int
  resetTime : Nat
deriving DecidableEq, Repr

/-- `SecurityManager.checkRateLimit` (src/lib/security.ts lines 16-45).
Takes the rate-limit map and `Date.now()` explicitly; returns the result
and the updated map. -/
def checkRateLimit (rateLimitMap : List (String × RateLimitEntry)) (now : Nat)
    (userAddress : String) (maxRequests : Nat) (windowMs : Nat) :
    RateLimitResult × List (String × RateLimitEntry) :=
  let key := strToLower userAddress
  match alistGet key rateLimitMap with
  | none =>
    ({ allowed := true, remaining := (maxRequests : Int) - 1,
       resetTime := now + windowMs },
     alistSet key ⟨1, now + windowMs⟩ rateLimitMap)
  | some current =>
    if now > current.resetTime then
      ({ allowed := true, remaining := (maxRequests : Int) - 1,
         resetTime := now + windowMs },
       alistSet key ⟨1, now + windowMs⟩ rateLimitMap)
    else if current.count ≥ maxRequests then
      ({ allowed := false, remaining := 0, resetTime := current.resetTime },
       rateLimitMap)
    else
      ({ allowed := true,
         remaining := (maxRequests : Int) - ((current.count : Int) + 1),
         resetTime := current.resetTime },
       alistSet key ⟨current.count + 1, current.resetTime⟩ rateLimitMap)

/-- State of the rate-limit map after `n` successive `checkRateLimit` calls
for the same address at the same instant `t`, starting from the empty map. -/
def rlIter (addr : String) (maxRequests windowMs t : Nat) :
    Nat → List (String × RateLimitEntry)
  | 0 => []
  | n + 1 =>
    (checkRateLimit (rlIter addr maxRequests windowMs t n) t addr maxRequests
      windowMs).2

/-- Result of the `n`-th (1-based) of a run of successive `checkRateLimit`
calls for the same address at the same instant `t`, starting from the empty
map. -/
def rlNth (addr : String) (maxRequests windowMs t n : Nat) : RateLimitResult :=
  (checkRateLimit (rlIter addr maxRequests windowMs t (n - 1)) t addr
    maxRequests windowMs).1

/-- Whether a trace contains a usage-commit call. -/
def hasConsume : List Event → Bool
  | [] => false
  | .consume _ _ :: _ => true
  | _ :: rest => hasConsume rest

/-- Whether a trace contains a capability invocation. -/
def hasExec : List Event → Bool
  | [] => false
  | .exec _ :: _ => true
  | _ :: rest => hasExec rest

theorem alistGet_set_self {α : Type} (k : String) (v : α)
    (l : List (String × α)) : alistGet k (alistSet k v l) = some v := by
  simp [alistSet, alistGet]

theorem alistGet_del_self {α : Type} (k : String) (l : List (String × α)) :
    alistGet k (alistDel k l) = none := by
  induction l with
  | nil => rfl
  | cons hd tl ih =>
    obtain ⟨k2, v⟩ := hd
    by_cases h : k2 = k
    · simpa [alistDel, h] using ih
    · simpa [alistDel, alistGet, h] using ih

theorem hasConsume_append (l1 l2 : List Event) :
    hasConsume (l1 ++ l2) = (hasConsume l1 || hasConsume l2) := by
  induction l1 with
  | nil => simp [hasConsume]
  | cons hd tl ih => cases hd <;> simp [hasConsume, ih]

theorem hasExec_append (l1 l2 : List Event) :
    hasExec (l1 ++ l2) = (hasExec l1 || hasExec l2) := by
  induction l1 with
  | nil => simp [hasExec]
  | cons hd tl ih => cases hd <;> simp [hasExec, ih]

/-- A cache hit within the TTL returns the cached result, leaves the state
unchanged and issues no ledger call. -/
theorem verifyAccess_cache_hit (env : Env) (st : AgentState) (now : Nat)
    (a : String) (r : AccessControlResult) (ts : Nat)
    (hget : alistGet (strToLower a) st.accessCache = some (r, ts))
    (hts : now - ts < cacheDuration) :
    verifyAccess env st now a false = (r, st, []) := by
  simp only [verifyAccess]
  rw [hget]
  simp [hts]

/-- A cache miss with a valid contract and a successful ledger read builds
the result from the ledger tuple, caches it, and issues one ledger read. -/
theorem verifyAccess_fetch_ok (env : Env) (st : AgentState) (now : Nat)
    (a : String) (sub : LedgerSub)
    (hmiss : alistGet (strToLower a) st.accessCache = none)
    (hc : env.contractValid = true)
    (hs : env.getUserSubscription a = .ok sub) :
    verifyAccess env st now a false =
      (⟨sub.isValid, sub.tokenId, sub.remainingUsage, sub.expiryTime,
        sub.tierName, tierAccessLevel sub.tierName⟩,
       ⟨alistSet (strToLower a)
          (⟨sub.isValid, sub.tokenId, sub.remainingUsage, sub.expiryTime,
            sub.tierName, tierAccessLevel sub.tierName⟩, now) st.accessCache⟩,
       [.readSub a]) := by
  simp only [verifyAccess, verifyAccessFetch]
  rw [hmiss, hc, hs]
  simp

/-- A cache miss with a valid contract whose ledger read throws yields the
permissive fallback result, caches it, and issues one ledger read. -/
theorem verifyAccess_fetch_error (env : Env) (st : AgentState) (now : Nat)
    (a : String)
    (hmiss : alistGet (strToLower a) st.accessCache = none)
    (hc : env.contractValid = true)
    (hs : env.getUserSubscription a = .error ()) :
    verifyAccess env st now a false =
      (fallbackResult now,
       ⟨alistSet (strToLower a) (fallbackResult now, now) st.accessCache⟩,
       [.readSub a]) := by
  simp only [verifyAccess, verifyAccessFetch]
  rw [hmiss, hc, hs]
  simp

/-- A cache miss in demo mode (no valid contract) yields the permissive
mock result with no ledger call. -/
theorem verifyAccess_fetch_demo (env : Env) (st : AgentState) (now : Nat)
    (a : String)
    (hmiss : alistGet (strToLower a) st.accessCache = none)
    (hc : env.contractValid = false) :
    verifyAccess env st now a false =
      (mockResult now,
       ⟨alistSet (strToLower a) (mockResult now, now) st.accessCache⟩, []) := by
  simp only [verifyAccess, verifyAccessFetch]
  rw [hmiss, hc]
  simp

/-- `processQuery`, access-denied branch. -/
theorem processQuery_noAccess (env : Env) (st : AgentState) (now : Nat)
    (a q sid : String) (r : AccessControlResult) (st1 : AgentState)
    (tr1 : List Event)
    (hva : verifyAccess env st now a false = (r, st1, tr1))
    (h : r.hasAccess = false) :
    processQuery env st now a q sid =
      ({ success := false, response := none, error := some accessDeniedMsg,
         usageConsumed := none, transactionHash := none }, st1, tr1) := by
  simp only [processQuery]
  rw [hva]
  simp [h]

/-- `processQuery`, quota-exceeded branch: the only quota test is
`remainingUsage === 0`. -/
theorem processQuery_quotaZero (env : Env) (st : AgentState) (now : Nat)
    (a q sid : String) (r : AccessControlResult) (st1 : AgentState)
    (tr1 : List Event)
    (hva : verifyAccess env st now a false = (r, st1, tr1))
    (h1 : r.hasAccess = true) (h2 : r.remainingUsage = 0) :
    processQuery env st now a q sid =
      ({ success := false, response := none, error := some quotaExceededMsg,
         usageConsumed := none, transactionHash := none }, st1, tr1) := by
  simp only [processQuery]
  rw [hva]
  simp [h1, h2]

/-- `processQuery`, validation-rejection branch. -/
theorem processQuery_invalid (env : Env) (st : AgentState) (now : Nat)
    (a q sid : String) (r : AccessControlResult) (st1 : AgentState)
    (tr1 : List Event)
    (hva : verifyAccess env st now a false = (r, st1, tr1))
    (h1 : r.hasAccess = true) (h2 : r.remainingUsage ≠ 0)
    (h3 : (validateQuery q r.accessLevel).isValid = false) :
    processQuery env st now a q sid =
      ({ success := false, response := none,
         error := (validateQuery q r.accessLevel).error,
         usageConsumed := none, transactionHash := none }, st1, tr1) := by
  simp only [processQuery]
  rw [hva]
  simp [h1, h2, h3]

/-- `processQuery`, catch branch: the capability throws. -/
theorem processQuery_execError (env : Env) (st : AgentState) (now : Nat)
    (a q sid : String) (r : AccessControlResult) (st1 : AgentState)
    (tr1 : List Event)
    (hva : verifyAccess env st now a false = (r, st1, tr1))
    (h1 : r.hasAccess = true) (h2 : r.remainingUsage ≠ 0)
    (h3 : (validateQuery q r.accessLevel).isValid = true)
    (hx : env.execute q r.accessLevel = .error ()) :
    processQuery env st now a q sid =
      ({ success := false, response := none,
         error := some processingFailedMsg,
         usageConsumed := none, transactionHash := none },
       st1, tr1 ++ [.exec q]) := by
  simp only [processQuery]
  rw [hva]
  simp [h1, h2, h3, hx]

/-- `processQuery`, success branch. -/
theorem processQuery_success (env : Env) (st : AgentState) (now : Nat)
    (a q sid : String) (r : AccessControlResult) (st1 : AgentState)
    (tr1 : List Event) (aiResponse : AIResponse)
    (hva : verifyAccess env st now a false = (r, st1, tr1))
    (h1 : r.hasAccess = true) (h2 : r.remainingUsage ≠ 0)
    (h3 : (validateQuery q r.accessLevel).isValid = true)
    (hx : env.execute q r.accessLevel = .ok aiResponse) :
    processQuery env st now a q sid =
      ({ success := true,
         response := some { aiResponse with
           verificationProof := some (generateVerificationProof
             ⟨a, q, now, sid⟩ aiResponse now) },
         error := none,
         usageConsumed := some (calculateUsageCost q r.accessLevel),
         transactionHash := some (consumeUsageWithLogging env now a
           (calculateUsageCost q r.accessLevel)).1 },
       ⟨alistDel (strToLower a) st1.accessCache⟩,
       tr1 ++ [.exec q] ++ (consumeUsageWithLogging env now a
         (calculateUsageCost q r.accessLevel)).2) := by
  simp only [processQuery]
  rw [hva]
  simp [h1, h2, h3, hx]

/-- C6: pricing is a deterministic pure function of the payload
characteristics (length above the 100-character threshold, presence of an
expensive-content keyword) and the tier; higher tiers apply a floor-rounded
multiplicative discount (enterprise ≤ premium ≤ basic) and the result is
always a positive integer, at least 1. -/
theorem C6_pricing_properties :
    (∀ (q : String) (lvl : AccessLevel), 1 ≤ calculateUsageCost q lvl) ∧
    (∀ (q1 q2 : String) (lvl : AccessLevel),
      (100 < q1.length ↔ 100 < q2.length) →
      hasExpensiveMarker q1 = hasExpensiveMarker q2 →
      calculateUsageCost q1 lvl = calculateUsageCost q2 lvl) ∧
    (∀ q : String,
      calculateUsageCost q .enterprise ≤ calculateUsageCost q .premium ∧
      calculateUsageCost q .premium ≤ calculateUsageCost q .basic) := by
  refine ⟨?_, ?_, ?_⟩
  · intro q lvl
    cases lvl <;> simp only [calculateUsageCost]
    · exact le_trans (Nat.le_add_right 1 _) (Nat.le_add_right _ _)
    · exact le_max_left 1 _
    · exact le_max_left 1 _
  · intro q1 q2 lvl h1 h2
    have e1 : (if 100 < q1.length then 1 else 0)
        = (if 100 < q2.length then 1 else 0) := by
      by_cases h : 100 < q1.length
      · rw [if_pos h, if_pos (h1.mp h)]
      · rw [if_neg h, if_neg (fun hc => h (h1.mpr hc))]
    simp only [calculateUsageCost, e1, h2]
  · intro q
    simp only [calculateUsageCost]
    have hb : 1 ≤ 1 + (if 100 < q.length then 1 else 0)
        + (if hasExpensiveMarker q then 1 else 0) := by
      split <;> split <;> omega
    generalize (1 + (if 100 < q.length then 1 else 0)
        + (if hasExpensiveMarker q then 1 else 0)) = b at hb ⊢
    have h58 : b * 5 / 10 ≤ b * 8 / 10 := by omega
    have h8b : b * 8 / 10 ≤ b := by omega
    exact ⟨max_le_max (le_refl 1) h58, max_le hb h8b⟩

/-- Witness for C6 at concrete payloads. -/
theorem C6_pricing_witness :
    calculateUsageCost "abc" AccessLevel.premium
      = calculateUsageCost "xyz" AccessLevel.premium ∧
    1 ≤ calculateUsageCost "abc" AccessLevel.basic :=
  ⟨C6_pricing_properties.2.1 "abc" "xyz" AccessLevel.premium (by decide)
      (by decide),
   C6_pricing_properties.1 "abc" AccessLevel.basic⟩

/-- C7: receipt round-trip — verifying the proof issued for a
request/response pair against the same response content returns `true`, and
against any different response content returns `false`. -/
theorem C7_receipt_roundtrip :
    ∀ (ctx : QueryContext) (resp : AIResponse) (now : Nat) (s : String),
      verifyResponse (generateVerificationProof ctx resp now) resp.content
        = true ∧
      (s ≠ resp.content →
        verifyResponse (generateVerificationProof ctx resp now) s = false) := by
  intro ctx resp now s
  constructor
  · simp [verifyResponse, generateVerificationProof]
  · intro h
    simp only [verifyResponse, generateVerificationProof]
    exact beq_eq_false_iff_ne.mpr (fun hc => h hc.symm)

/-- Witness for C7 at a concrete request/response pair. -/
theorem C7_receipt_witness :
    verifyResponse
      (generateVerificationProof ⟨"0xAB", "q", 0, "s"⟩ ⟨"resp", 70, [], none⟩ 0)
      "resp" = true ∧
    verifyResponse
      (generateVerificationProof ⟨"0xAB", "q", 0, "s"⟩ ⟨"resp", 70, [], none⟩ 0)
      "other" = false :=
  ⟨(C7_receipt_roundtrip ⟨"0xAB", "q", 0, "s"⟩ ⟨"resp", 70, [], none⟩ 0
      "other").1,
   (C7_receipt_roundtrip ⟨"0xAB", "q", 0, "s"⟩ ⟨"resp", 70, [], none⟩ 0
      "other").2 (by decide)⟩

/-- An environment with a valid contract whose ledger read always throws. -/
def envLedgerThrows : Env :=
  { contractValid := true,
    getUserSubscription := fun _ => .error (),
    consumeUsage := fun _ _ => .ok "tx",
    execute := fun _ _ => .ok ⟨"r", 70, [], none⟩ }

/-- C2 counterexample: with a valid provider/contract whose ledger read
throws and an empty cache, `verifyAccess` does not propagate the failure —
it returns a permissive "Demo Fallback" result granting access. -/
theorem C2_counterexample :
    (verifyAccess envLedgerThrows ⟨[]⟩ 0 "0xAB" false).1.hasAccess = true ∧
    (verifyAccess envLedgerThrows ⟨[]⟩ 0 "0xAB" false).1.tierName
      = "Demo Fallback" := by
  decide

/-- C2 (amended): when the ledger read fails and no cached value exists,
`verifyAccess` fail-opens — it returns the fallback entitlement with
`hasAccess = true` ("Demo Fallback", 5 remaining uses) and caches it,
rather than propagating `Unavailable`. -/
theorem C2_fallback_fail_open (env : Env) (st : AgentState) (now : Nat)
    (a : String)
    (hmiss : alistGet (strToLower a) st.accessCache = none)
    (hc : env.contractValid = true)
    (hs : env.getUserSubscription a = .error ()) :
    (verifyAccess env st now a false).1 = fallbackResult now ∧
    (verifyAccess env st now a false).1.hasAccess = true ∧
    alistGet (strToLower a) (verifyAccess env st now a false).2.1.accessCache
      = some (fallbackResult now, now) := by
  rw [verifyAccess_fetch_error env st now a hmiss hc hs]
  exact ⟨rfl, rfl, alistGet_set_self _ _ _⟩

/-- Witness for the amended C2 at a concrete environment and state. -/
theorem C2_fallback_witness :
    (verifyAccess envLedgerThrows ⟨[]⟩ 5 "0xAB" false).1 = fallbackResult 5 ∧
    (verifyAccess envLedgerThrows ⟨[]⟩ 5 "0xAB" false).1.hasAccess = true ∧
    alistGet (strToLower "0xAB")
      (verifyAccess envLedgerThrows ⟨[]⟩ 5 "0xAB" false).2.1.accessCache
      = some (fallbackResult 5, 5) :=
  C2_fallback_fail_open envLedgerThrows ⟨[]⟩ 5 "0xAB" rfl rfl rfl

/-- `verifyAccess` issues at most one ledger read and nothing else. -/
theorem verifyAccess_trace (env : Env) (st : AgentState) (now : Nat)
    (a : String) (f : Bool) :
    (verifyAccess env st now a f).2.2 = [] ∨
    (verifyAccess env st now a f).2.2 = [Event.readSub a] := by
  simp only [verifyAccess, verifyAccessFetch]
  split
  · split
    · left; rfl
    · split
      · left; rfl
      · split
        · right; rfl
        · right; rfl
  · split
    · left; rfl
    · split
      · right; rfl
      · right; rfl

/-- The `verifyAccess` trace contains no capability invocation and no
usage commit. -/
theorem verifyAccess_trace_clean (env : Env) (st : AgentState) (now : Nat)
    (a : String) (f : Bool) :
    hasExec (verifyAccess env st now a f).2.2 = false ∧
    hasConsume (verifyAccess env st now a f).2.2 = false := by
  rcases verifyAccess_trace env st now a f with h | h <;> rw [h] <;>
    exact ⟨rfl, rfl⟩

/-- An environment whose ledger grants a valid subscription with exactly
one remaining use on an unnamed (basic) tier. -/
def envQuotaOne : Env :=
  { contractValid := true,
    getUserSubscription := fun _ => .ok ⟨true, "1", 9999999999, 1, "Basic"⟩,
    consumeUsage := fun _ _ => .ok "0xtx",
    execute := fun _ _ => .ok ⟨"resp", 70, [], none⟩ }

/-- C1 counterexample: the query "analysis" is priced at 2 units on the
basic tier, yet against an entitlement with only 1 remaining use it is not
rejected — `processQuery` executes the capability, reports success, and
commits usage of 2. -/
theorem C1_counterexample :
    calculateUsageCost "analysis" AccessLevel.basic = 2 ∧
    (verifyAccess envQuotaOne ⟨[]⟩ 0 "0xAB" false).1.remainingUsage = 1 ∧
    (processQuery envQuotaOne ⟨[]⟩ 0 "0xAB" "analysis" "s").1.success
      = true ∧
    (processQuery envQuotaOne ⟨[]⟩ 0 "0xAB" "analysis" "s").1.usageConsumed
      = some 2 ∧
    hasExec (processQuery envQuotaOne ⟨[]⟩ 0 "0xAB" "analysis" "s").2.2
      = true ∧
    hasConsume (processQuery envQuotaOne ⟨[]⟩ 0 "0xAB" "analysis" "s").2.2
      = true := by
  decide

/-- C1 (amended): the only local quota test in `processQuery` is
`remainingUsage === 0`: when the access check grants access but reports
zero remaining uses, the request is rejected with the quota-exceeded
error, the capability is never executed, and no usage commit is issued;
a positive remaining quota smaller than the priced cost does not cause a
rejection. -/
theorem C1_quota_zero_rejected (env : Env) (st : AgentState) (now : Nat)
    (a q sid : String) (r : AccessControlResult) (st1 : AgentState)
    (tr1 : List Event)
    (hva : verifyAccess env st now a false = (r, st1, tr1))
    (h1 : r.hasAccess = true) (h2 : r.remainingUsage = 0) :
    (processQuery env st now a q sid).1.success = false ∧
    (processQuery env st now a q sid).1.error = some quotaExceededMsg ∧
    hasExec (processQuery env st now a q sid).2.2 = false ∧
    hasConsume (processQuery env st now a q sid).2.2 = false := by
  rw [processQuery_quotaZero env st now a q sid r st1 tr1 hva h1 h2]
  have hclean := verifyAccess_trace_clean env st now a false
  rw [hva] at hclean
  exact ⟨rfl, rfl, hclean.1, hclean.2⟩

/-- An environment whose ledger grants a valid subscription with zero
remaining uses. -/
def envQuotaZero : Env :=
  { contractValid := true,
    getUserSubscription := fun _ => .ok ⟨true, "1", 9999999999, 0, "Monthly"⟩,
    consumeUsage := fun _ _ => .ok "0xtx",
    execute := fun _ _ => .ok ⟨"resp", 70, [], none⟩ }

/-- Witness for the amended C1 at a concrete environment. -/
theorem C1_quota_zero_witness :
    (processQuery envQuotaZero ⟨[]⟩ 0 "0xAB" "hello" "s").1.success = false ∧
    (processQuery envQuotaZero ⟨[]⟩ 0 "0xAB" "hello" "s").1.error
      = some quotaExceededMsg ∧
    hasExec (processQuery envQuotaZero ⟨[]⟩ 0 "0xAB" "hello" "s").2.2
      = false ∧
    hasConsume (processQuery envQuotaZero ⟨[]⟩ 0 "0xAB" "hello" "s").2.2
      = false :=
  C1_quota_zero_rejected envQuotaZero ⟨[]⟩ 0 "0xAB" "hello" "s"
    (verifyAccess envQuotaZero ⟨[]⟩ 0 "0xAB" false).1
    (verifyAccess envQuotaZero ⟨[]⟩ 0 "0xAB" false).2.1
    (verifyAccess envQuotaZero ⟨[]⟩ 0 "0xAB" false).2.2
    rfl (by decide) (by decide)

/-- C3: if the capability invocation throws inside `processQuery`, the
outcome is the generic processing failure, no usage-commit call is issued
(the remaining quota is untouched), and the agent state is exactly the
post-access-check state — the cached entitlement entry is neither modified
nor deleted. -/
theorem C3_exec_failure_no_commit (env : Env) (st : AgentState) (now : Nat)
    (a q sid : String) (r : AccessControlResult) (st1 : AgentState)
    (tr1 : List Event)
    (hva : verifyAccess env st now a false = (r, st1, tr1))
    (h1 : r.hasAccess = true) (h2 : r.remainingUsage ≠ 0)
    (h3 : (validateQuery q r.accessLevel).isValid = true)
    (hx : env.execute q r.accessLevel = .error ()) :
    (processQuery env st now a q sid).1.success = false ∧
    (processQuery env st now a q sid).1.error = some processingFailedMsg ∧
    hasConsume (processQuery env st now a q sid).2.2 = false ∧
    (processQuery env st now a q sid).2.1 = st1 := by
  rw [processQuery_execError env st now a q sid r st1 tr1 hva h1 h2 h3 hx]
  refine ⟨rfl, rfl, ?_, rfl⟩
  rw [hasConsume_append]
  have hclean := verifyAccess_trace_clean env st now a false
  rw [hva] at hclean
  rw [hclean.2]
  rfl

/-- An environment with a valid subscription whose capability invocation
always throws. -/
def envExecThrows : Env :=
  { contractValid := true,
    getUserSubscription := fun _ => .ok ⟨true, "1", 9999999999, 5, "Monthly"⟩,
    consumeUsage := fun _ _ => .ok "0xtx",
    execute := fun _ _ => .error () }

/-- Witness for C3 at a concrete environment. -/
theorem C3_exec_failure_witness :
    (processQuery envExecThrows ⟨[]⟩ 0 "0xAB" "hello" "s").1.success = false ∧
    (processQuery envExecThrows ⟨[]⟩ 0 "0xAB" "hello" "s").1.error
      = some processingFailedMsg ∧
    hasConsume (processQuery envExecThrows ⟨[]⟩ 0 "0xAB" "hello" "s").2.2
      = false ∧
    (processQuery envExecThrows ⟨[]⟩ 0 "0xAB" "hello" "s").2.1
      = (verifyAccess envExecThrows ⟨[]⟩ 0 "0xAB" false).2.1 :=
  C3_exec_failure_no_commit envExecThrows ⟨[]⟩ 0 "0xAB" "hello" "s"
    (verifyAccess envExecThrows ⟨[]⟩ 0 "0xAB" false).1
    (verifyAccess envExecThrows ⟨[]⟩ 0 "0xAB" false).2.1
    (verifyAccess envExecThrows ⟨[]⟩ 0 "0xAB" false).2.2
    rfl (by decide) (by decide) (by decide) rfl

/-- An environment whose ledger grants a valid "Monthly" subscription with
5 remaining uses. -/
def envValidSub : Env :=
  { contractValid := true,
    getUserSubscription := fun _ => .ok ⟨true, "1", 9999999999, 5, "Monthly"⟩,
    consumeUsage := fun _ _ => .ok "0xtx",
    execute := fun _ _ => .ok ⟨"resp", 70, [], none⟩ }

/-- C8 counterexample: a prohibited-content request is rejected with the
invalid-request error, but the validation did not happen before all I/O —
the rejected request issued a ledger read and changed the cache state. -/
theorem C8_counterexample :
    (processQuery envValidSub ⟨[]⟩ 0 "0xAB" "hack" "s").1.success = false ∧
    (processQuery envValidSub ⟨[]⟩ 0 "0xAB" "hack" "s").1.error
      = some "Query contains prohibited content." ∧
    (processQuery envValidSub ⟨[]⟩ 0 "0xAB" "hack" "s").2.2
      = [Event.readSub "0xAB"] ∧
    (processQuery envValidSub ⟨[]⟩ 0 "0xAB" "hack" "s").2.1
      ≠ AgentState.mk [] := by
  decide

/-- C8 (amended): empty, overlong, and prohibited-content payloads are
rejected with the invalid-request error; a validation-rejected request
never executes the capability and never commits usage, and its final agent
state is the post-access-check state — but validation runs after the
access check, which may itself issue a ledger read and fill the cache. -/
theorem C8_validation_rejection :
    (∀ (env : Env) (st : AgentState) (now : Nat) (a q sid : String)
       (r : AccessControlResult) (st1 : AgentState) (tr1 : List Event),
      verifyAccess env st now a false = (r, st1, tr1) →
      r.hasAccess = true → r.remainingUsage ≠ 0 →
      (validateQuery q r.accessLevel).isValid = false →
      (processQuery env st now a q sid).1.success = false ∧
      (processQuery env st now a q sid).1.error
        = (validateQuery q r.accessLevel).error ∧
      hasExec (processQuery env st now a q sid).2.2 = false ∧
      hasConsume (processQuery env st now a q sid).2.2 = false ∧
      (processQuery env st now a q sid).2.1 = st1) ∧
    (∀ lvl : AccessLevel, (validateQuery "" lvl).isValid = false) ∧
    (∀ (q : String) (lvl : AccessLevel), 1000 < q.length →
      (validateQuery q lvl).isValid = false) ∧
    (∀ (q : String) (lvl : AccessLevel) (t : String), t ∈ prohibitedTerms →
      strContains (strToLower q) t = true → (validateQuery q lvl).isValid = false) := by
  refine ⟨?_, ?_, ?_, ?_⟩
  · intro env st now a q sid r st1 tr1 hva h1 h2 h3
    rw [processQuery_invalid env st now a q sid r st1 tr1 hva h1 h2 h3]
    have hclean := verifyAccess_trace_clean env st now a false
    rw [hva] at hclean
    exact ⟨rfl, rfl, hclean.1, hclean.2, rfl⟩
  · intro lvl
    rfl
  · intro q lvl h
    simp [validateQuery, h]
  · intro q lvl t ht hc
    have hany : prohibitedTerms.any (fun term => strContains (strToLower q) term)
        = true :=
      List.any_eq_true.mpr ⟨t, ht, hc⟩
    simp only [validateQuery]
    split
    · rfl
    · simp [hany]

/-- Witness for the amended C8 at a concrete environment and payload. -/
theorem C8_validation_witness :
    (processQuery envValidSub ⟨[]⟩ 0 "0xCD" "hack" "s").1.success = false ∧
    (processQuery envValidSub ⟨[]⟩ 0 "0xCD" "hack" "s").1.error
      = (validateQuery "hack"
          (verifyAccess envValidSub ⟨[]⟩ 0 "0xCD" false).1.accessLevel).error ∧
    hasExec (processQuery envValidSub ⟨[]⟩ 0 "0xCD" "hack" "s").2.2 = false ∧
    hasConsume (processQuery envValidSub ⟨[]⟩ 0 "0xCD" "hack" "s").2.2
      = false ∧
    (processQuery envValidSub ⟨[]⟩ 0 "0xCD" "hack" "s").2.1
      = (verifyAccess envValidSub ⟨[]⟩ 0 "0xCD" false).2.1 :=
  C8_validation_rejection.1 envValidSub ⟨[]⟩ 0 "0xCD" "hack" "s"
    (verifyAccess envValidSub ⟨[]⟩ 0 "0xCD" false).1
    (verifyAccess envValidSub ⟨[]⟩ 0 "0xCD" false).2.1
    (verifyAccess envValidSub ⟨[]⟩ 0 "0xCD" false).2.2
    rfl (by decide) (by decide) (by decide)

/-- C9: a subscriber with no cached entitlement whose ledger read reports
no valid subscription is rejected with the access-denied error; the
capability is not executed and no usage is committed. -/
theorem C9_no_access_rejected (env : Env) (st : AgentState) (now : Nat)
    (a q sid : String) (sub : LedgerSub)
    (hmiss : alistGet (strToLower a) st.accessCache = none)
    (hc : env.contractValid = true)
    (hs : env.getUserSubscription a = .ok sub)
    (hinv : sub.isValid = false) :
    (processQuery env st now a q sid).1.success = false ∧
    (processQuery env st now a q sid).1.error = some accessDeniedMsg ∧
    hasExec (processQuery env st now a q sid).2.2 = false ∧
    hasConsume (processQuery env st now a q sid).2.2 = false := by
  have hva := verifyAccess_fetch_ok env st now a sub hmiss hc hs
  rw [processQuery_noAccess env st now a q sid _ _ _ hva hinv]
  exact ⟨rfl, rfl, rfl, rfl⟩

/-- An environment whose ledger reports no valid subscription. -/
def envNoSub : Env :=
  { contractValid := true,
    getUserSubscription := fun _ => .ok ⟨false, "0", 0, 0, ""⟩,
    consumeUsage := fun _ _ => .ok "0xtx",
    execute := fun _ _ => .ok ⟨"resp", 70, [], none⟩ }

/-- Witness for C9 at a concrete environment. -/
theorem C9_no_access_witness :
    (processQuery envNoSub ⟨[]⟩ 0 "0xAB" "hello" "s").1.success = false ∧
    (processQuery envNoSub ⟨[]⟩ 0 "0xAB" "hello" "s").1.error
      = some accessDeniedMsg ∧
    hasExec (processQuery envNoSub ⟨[]⟩ 0 "0xAB" "hello" "s").2.2 = false ∧
    hasConsume (processQuery envNoSub ⟨[]⟩ 0 "0xAB" "hello" "s").2.2
      = false :=
  C9_no_access_rejected envNoSub ⟨[]⟩ 0 "0xAB" "hello" "s"
    ⟨false, "0", 0, 0, ""⟩ rfl rfl rfl rfl

/-- Any `processQuery` run that reports success ends with the subscriber's
cache entry (keyed by the lowercased address) removed. -/
theorem processQuery_cache_cleared (env : Env) (st : AgentState) (now : Nat)
    (a q sid : String)
    (hsucc : (processQuery env st now a q sid).1.success = true) :
    alistGet (strToLower a)
      (processQuery env st now a q sid).2.1.accessCache = none := by
  rcases hva : verifyAccess env st now a false with ⟨r, st1, tr1⟩
  by_cases h1 : r.hasAccess = false
  · rw [processQuery_noAccess env st now a q sid r st1 tr1 hva h1] at hsucc
    simp at hsucc
  · have h1t : r.hasAccess = true := by
      revert h1; cases r.hasAccess <;> simp
    by_cases h2 : r.remainingUsage = 0
    · rw [processQuery_quotaZero env st now a q sid r st1 tr1 hva h1t h2]
        at hsucc
      simp at hsucc
    · by_cases h3 : (validateQuery q r.accessLevel).isValid = false
      · rw [processQuery_invalid env st now a q sid r st1 tr1 hva h1t h2 h3]
          at hsucc
        simp at hsucc
      · have h3t : (validateQuery q r.accessLevel).isValid = true := by
          revert h3; cases (validateQuery q r.accessLevel).isValid <;> simp
        cases hx : env.execute q r.accessLevel with
        | error e =>
          cases e
          rw [processQuery_execError env st now a q sid r st1 tr1 hva h1t h2
            h3t hx] at hsucc
          simp at hsucc
        | ok resp =>
          rw [processQuery_success env st now a q sid r st1 tr1 resp hva h1t
            h2 h3t hx]
          exact alistGet_del_self _ _

/-- C4: a cache read within the TTL returns the cached entitlement with
zero ledger calls and an unchanged state (so repeated reads keep doing
so); a successful `processQuery` removes the subscriber's cache entry
unconditionally; and the next read, finding no entry, issues exactly one
ledger read and returns the quota the ledger now reports (reflecting the
debit). -/
theorem C4_cache_behaviour :
    (∀ (env : Env) (st : AgentState) (now : Nat) (a : String)
       (r : AccessControlResult) (ts : Nat),
      alistGet (strToLower a) st.accessCache = some (r, ts) →
      now - ts < cacheDuration →
      verifyAccess env st now a false = (r, st, [])) ∧
    (∀ (env : Env) (st : AgentState) (now : Nat) (a q sid : String),
      (processQuery env st now a q sid).1.success = true →
      alistGet (strToLower a)
        (processQuery env st now a q sid).2.1.accessCache = none) ∧
    (∀ (env : Env) (st : AgentState) (now : Nat) (a : String)
       (sub : LedgerSub),
      alistGet (strToLower a) st.accessCache = none →
      env.contractValid = true →
      env.getUserSubscription a = .ok sub →
      (verifyAccess env st now a false).2.2 = [Event.readSub a] ∧
      (verifyAccess env st now a false).1.remainingUsage
        = sub.remainingUsage) := by
  refine ⟨?_, ?_, ?_⟩
  · intro env st now a r ts hget hts
    exact verifyAccess_cache_hit env st now a r ts hget hts
  · intro env st now a q sid hsucc
    exact processQuery_cache_cleared env st now a q sid hsucc
  · intro env st now a sub hmiss hc hs
    rw [verifyAccess_fetch_ok env st now a sub hmiss hc hs]
    exact ⟨rfl, rfl⟩

/-- Witness for C4 at concrete states and environments. -/
theorem C4_cache_witness :
    verifyAccess envValidSub ⟨[("0xab", (fallbackResult 0, 0))]⟩ 100 "0xAB"
      false = (fallbackResult 0, ⟨[("0xab", (fallbackResult 0, 0))]⟩, []) ∧
    alistGet (strToLower "0xAB")
      (processQuery envValidSub ⟨[]⟩ 0 "0xAB" "hello" "s").2.1.accessCache
      = none ∧
    (verifyAccess envValidSub ⟨[]⟩ 0 "0xCD" false).2.2
      = [Event.readSub "0xCD"] :=
  ⟨C4_cache_behaviour.1 envValidSub ⟨[("0xab", (fallbackResult 0, 0))]⟩ 100
     "0xAB" (fallbackResult 0) 0 (by decide) (by decide),
   C4_cache_behaviour.2.1 envValidSub ⟨[]⟩ 0 "0xAB" "hello" "s" (by decide),
   (C4_cache_behaviour.2.2 envValidSub ⟨[]⟩ 0 "0xCD"
     ⟨true, "1", 9999999999, 5, "Monthly"⟩ rfl rfl rfl).1⟩

/-- Closed form of the rate-limit map after `j + 1` same-instant checks
from the empty map: one entry, counting up to `maxRequests` and then
saturating. -/
theorem rlIter_closed (addr : String) (maxRequests windowMs t : Nat)
    (hmax : 1 ≤ maxRequests) (j : Nat) :
    rlIter addr maxRequests windowMs t (j + 1)
      = [(strToLower addr, ⟨min (j + 1) maxRequests, t + windowMs⟩)] := by
  induction j with
  | zero =>
    show (checkRateLimit [] t addr maxRequests windowMs).2
      = [(strToLower addr, ⟨min (0 + 1) maxRequests, t + windowMs⟩)]
    have h1 : min (0 + 1) maxRequests = 1 := by omega
    simp [checkRateLimit, alistGet, alistSet, alistDel, h1]
  | succ j ih =>
    show (checkRateLimit (rlIter addr maxRequests windowMs t (j + 1)) t addr
        maxRequests windowMs).2
      = [(strToLower addr, ⟨min (j + 1 + 1) maxRequests, t + windowMs⟩)]
    rw [ih]
    have hlt : ¬ t > t + windowMs := by omega
    by_cases hj : min (j + 1) maxRequests ≥ maxRequests
    · have hmm : min (j + 1) maxRequests = min (j + 1 + 1) maxRequests := by
        omega
      have hcond : maxRequests ≤ j + 1 + 1 := by omega
      simp [checkRateLimit, alistGet, alistSet, alistDel, hlt, hj, hmm, hcond]
    · have hmm : min (j + 1) maxRequests + 1 = min (j + 1 + 1) maxRequests := by
        omega
      simp only [checkRateLimit, alistGet, eq_self_iff_true, if_true]
      rw [if_neg hlt, if_neg hj]
      simp [alistSet, alistDel, hmm]

/-- Checks 1 … `maxRequests` of a same-instant run are allowed. -/
theorem rlNth_allowed (addr : String) (maxRequests windowMs t n : Nat)
    (h1 : 1 ≤ n) (h2 : n ≤ maxRequests) :
    (rlNth addr maxRequests windowMs t n).allowed = true := by
  match n, h1 with
  | 1, _ =>
    simp [rlNth, rlIter, checkRateLimit, alistGet]
  | (p + 2), _ =>
    have hmax : 1 ≤ maxRequests := by omega
    have hstep : p + 2 - 1 = p + 1 := rfl
    rw [rlNth, hstep, rlIter_closed addr maxRequests windowMs t hmax p]
    have hlt : ¬ t > t + windowMs := by omega
    have hcount : ¬ min (p + 1) maxRequests ≥ maxRequests := by omega
    simp only [checkRateLimit, alistGet, eq_self_iff_true, if_true]
    rw [if_neg hlt, if_neg hcount]

/-- The `(maxRequests + 1)`-th same-instant check is denied. -/
theorem rlNth_denied (addr : String) (maxRequests windowMs t : Nat)
    (hmax : 1 ≤ maxRequests) :
    (rlNth addr maxRequests windowMs t (maxRequests + 1)).allowed = false := by
  obtain ⟨m, rfl⟩ : ∃ m, maxRequests = m + 1 := ⟨maxRequests - 1, by omega⟩
  have hstep : m + 1 + 1 - 1 = m + 1 := rfl
  rw [rlNth, hstep, rlIter_closed addr (m + 1) windowMs t (by omega) m]
  have hlt : ¬ t > t + windowMs := by omega
  have hcount : min (m + 1) (m + 1) ≥ m + 1 := by omega
  simp only [checkRateLimit, alistGet, eq_self_iff_true, if_true]
  rw [if_neg hlt, if_pos hcount]

/-- Once `now` is strictly past the stored `resetTime`, a check resets the
window: it is allowed and the entry restarts at count 1. -/
theorem checkRateLimit_reset (st : List (String × RateLimitEntry))
    (now : Nat) (addr : String) (maxRequests windowMs : Nat)
    (cur : RateLimitEntry)
    (hget : alistGet (strToLower addr) st = some cur)
    (hnow : now > cur.resetTime) :
    (checkRateLimit st now addr maxRequests windowMs).1.allowed = true ∧
    (checkRateLimit st now addr maxRequests windowMs).2
      = alistSet (strToLower addr) ⟨1, now + windowMs⟩ st := by
  simp only [checkRateLimit]
  rw [hget]
  simp [hnow]

/-- C5 counterexample: (i) at `now` exactly `windowStart + windowMs`
(`100 = 0 + 100`) the code does not reset the window — with
`maxRequests = 1` and the single allowance already used, the check is
denied although the claim requires a reset and an allowance; (ii) with
`maxRequests = 0` the first check is allowed although the claim requires
the `(0 + 1)`-th check to be denied. -/
theorem C5_counterexample :
    (checkRateLimit (checkRateLimit [] 0 "0xAB" 1 100).2 100 "0xAB" 1
      100).1.allowed = false ∧
    (checkRateLimit [] 0 "0xAB" 0 100).1.allowed = true := by
  decide

/-- C5 (amended): for `maxRequests ≥ 1`, a same-instant run of checks from
a fresh window allows exactly checks 1 … `maxRequests` and denies the
`(maxRequests + 1)`-th; the window resets (allowed again, count restarted
at 1) when `now` is strictly greater than `windowStart + windowMs` — not
at equality. -/
theorem C5_rate_limit_window :
    (∀ (addr : String) (maxRequests windowMs t n : Nat),
      1 ≤ n → n ≤ maxRequests →
      (rlNth addr maxRequests windowMs t n).allowed = true) ∧
    (∀ (addr : String) (maxRequests windowMs t : Nat), 1 ≤ maxRequests →
      (rlNth addr maxRequests windowMs t (maxRequests + 1)).allowed
        = false) ∧
    (∀ (st : List (String × RateLimitEntry)) (now : Nat) (addr : String)
       (maxRequests windowMs : Nat) (cur : RateLimitEntry),
      alistGet (strToLower addr) st = some cur → now > cur.resetTime →
      (checkRateLimit st now addr maxRequests windowMs).1.allowed = true ∧
      (checkRateLimit st now addr maxRequests windowMs).2
        = alistSet (strToLower addr) ⟨1, now + windowMs⟩ st) :=
  ⟨rlNth_allowed, rlNth_denied, checkRateLimit_reset⟩

/-- Witness for the amended C5 at concrete parameters. -/
theorem C5_rate_limit_witness :
    (rlNth "0xAB" 3 100 0 3).allowed = true ∧
    (rlNth "0xAB" 3 100 0 4).allowed = false ∧
    (checkRateLimit [("0xab", ⟨3, 50⟩)] 60 "0xAB" 3 100).1.allowed = true ∧
    (checkRateLimit [("0xab", ⟨3, 50⟩)] 60 "0xAB" 3 100).2
      = alistSet (strToLower "0xAB") ⟨1, 160⟩ [("0xab", ⟨3, 50⟩)] :=
  ⟨C5_rate_limit_window.1 "0xAB" 3 100 0 3 (by decide) (by decide),
   C5_rate_limit_window.2.1 "0xAB" 3 100 0 (by decide),
   (C5_rate_limit_window.2.2 [("0xab", ⟨3, 50⟩)] 60 "0xAB" 3 100 ⟨3, 50⟩
     (by decide) (by decide)).1,
   (C5_rate_limit_window.2.2 [("0xab", ⟨3, 50⟩)] 60 "0xAB" 3 100 ⟨3, 50⟩
     (by decide) (by decide)).2⟩

/-- An environment whose ledger call distinguishes the letter case of the
queried address (the source forwards the raw, non-lowercased address to
`getUserSubscription`). -/
def envCaseSensitive : Env :=
  { contractValid := true,
    getUserSubscription := fun a =>
      if a = "0xAB" then .ok ⟨true, "1", 9999999999, 5, "Monthly"⟩
      else .ok ⟨false, "0", 0, 0, ""⟩,
    consumeUsage := fun _ _ => .ok "0xtx",
    execute := fun _ _ => .ok ⟨"resp", 70, [], none⟩ }

/-- C10 counterexample: `verifyAccess` does not behave identically on an
address and its lowercasing — on a cache miss it passes the raw address to
the ledger read, so both the issued ledger call and the returned result
differ between "0xAB" and "0xab". -/
theorem C10_counterexample :
    (verifyAccess envCaseSensitive ⟨[]⟩ 0 "0xAB" false).1.hasAccess = true ∧
    (verifyAccess envCaseSensitive ⟨[]⟩ 0 "0xab" false).1.hasAccess = false ∧
    (verifyAccess envCaseSensitive ⟨[]⟩ 0 "0xAB" false).2.2
      = [Event.readSub "0xAB"] ∧
    (verifyAccess envCaseSensitive ⟨[]⟩ 0 "0xab" false).2.2
      = [Event.readSub "0xab"] := by
  decide

/-- C10 (amended): `checkRateLimit` is fully case-insensitive in the
address (case variants share one rate window); the access cache is keyed
by the lowercased address, so case variants within the TTL hit the same
cache entry with identical results and zero ledger calls, and the
post-commit invalidation deletes exactly that lowercased key; but
`verifyAccess` forwards the raw address to the ledger read, so on a cache
miss the issued call and its result may differ between case variants. -/
theorem C10_case_normalization :
    (∀ (st : List (String × RateLimitEntry)) (now : Nat) (a b : String)
       (maxRequests windowMs : Nat), strToLower a = strToLower b →
      checkRateLimit st now a maxRequests windowMs
        = checkRateLimit st now b maxRequests windowMs) ∧
    (∀ (env : Env) (st : AgentState) (now : Nat) (a b : String)
       (r : AccessControlResult) (ts : Nat), strToLower a = strToLower b →
      alistGet (strToLower a) st.accessCache = some (r, ts) →
      now - ts < cacheDuration →
      verifyAccess env st now a false = (r, st, []) ∧
      verifyAccess env st now b false = (r, st, [])) ∧
    (∀ (env : Env) (st : AgentState) (now : Nat) (a b q sid : String),
      strToLower a = strToLower b →
      (processQuery env st now b q sid).1.success = true →
      alistGet (strToLower a)
        (processQuery env st now b q sid).2.1.accessCache = none) := by
  refine ⟨?_, ?_, ?_⟩
  · intro st now a b maxRequests windowMs h
    simp only [checkRateLimit, h]
  · intro env st now a b r ts h hget hts
    refine ⟨verifyAccess_cache_hit env st now a r ts hget hts, ?_⟩
    rw [h] at hget
    exact verifyAccess_cache_hit env st now b r ts hget hts
  · intro env st now a b q sid h hsucc
    rw [h]
    exact processQuery_cache_cleared env st now b q sid hsucc

/-- Witness for the amended C10 at concrete case-variant addresses. -/
theorem C10_case_witness :
    checkRateLimit [] 5 "0xAB" 10 100 = checkRateLimit [] 5 "0xab" 10 100 ∧
    verifyAccess envValidSub ⟨[("0xab", (fallbackResult 0, 0))]⟩ 100 "0xAB"
      false
      = (fallbackResult 0, ⟨[("0xab", (fallbackResult 0, 0))]⟩, []) ∧
    verifyAccess envValidSub ⟨[("0xab", (fallbackResult 0, 0))]⟩ 100 "0xab"
      false
      = (fallbackResult 0, ⟨[("0xab", (fallbackResult 0, 0))]⟩, []) ∧
    alistGet (strToLower "0xAB")
      (processQuery envValidSub ⟨[]⟩ 0 "0xab" "hello" "s").2.1.accessCache
      = none :=
  ⟨C10_case_normalization.1 [] 5 "0xAB" "0xab" 10 100 (by decide),
   (C10_case_normalization.2.1 envValidSub
     ⟨[("0xab", (fallbackResult 0, 0))]⟩ 100 "0xAB" "0xab" (fallbackResult 0)
     0 (by decide) (by decide) (by decide)).1,
   (C10_case_normalization.2.1 envValidSub
     ⟨[("0xab", (fallbackResult 0, 0))]⟩ 100 "0xAB" "0xab" (fallbackResult 0)
     0 (by decide) (by decide) (by decide)).2,
   C10_case_normalization.2.2 envValidSub ⟨[]⟩ 0 "0xAB" "0xab" "hello" "s"
     (by decide) (by decide)⟩

end DATAgent

